import Mathlib

/-!
Shallow embedding of the Psychometricist-AI scoring pipeline and session
machinery, translated from the Python sources:

  src/settings.py                (thresholds, classify_extraversion)
  src/scoring/feature_scorer.py  (WEIGHTS, score_with_features)
  src/extraction/features.py     (tokenizer, sentence counter, extract_features)
  src/extraction/word_lists.py   (category word lists, phrase lists)
  src/scoring/llm_scorer.py      (score_domain_level)
  src/scoring/embedding_scorer.py (score_with_embeddings)
  src/scoring/ensemble.py        (score_ensemble, _majority_vote)
  src/workflow.py                (router, update_state)
  src/models/initial_state.py    (new_assessment_state)
  src/session/logger.py          (SessionLogger.save)
  src/main.py                    (CLI quit handling)

Modelling conventions:
  * Python floats are modelled as exact rationals (ℚ).  Python's `round(x, d)`
    (round-half-to-even) is modelled by `pyround` below on rationals.
  * External effects (the OpenAI chat model and the embedding provider) are
    modelled as explicit input values: the chat model's parsed JSON reply and
    the two mean cosine similarities computed from the embedding provider's
    vectors are parameters of the scoring functions.
  * Strings are ASCII-modelled: the tokenizer's word characters are the ASCII
    letters, digits and underscore, as in the Python regex `\b[a-z]+(?:'[a-z]+)?\b`
    applied to lowercased text.
-/

namespace Psycho

set_option maxRecDepth 16000

/-- Python's banker's rounding of a rational to an integer
(`round` ties go to the even integer). -/
def round_half_even (q : ℚ) : ℤ :=
  let f : ℤ := ⌊q⌋
  let frac : ℚ := q - (f : ℚ)
  if frac < 1/2 then f
  else if 1/2 < frac then f + 1
  else if f % 2 = 0 then f else f + 1

/-- Python's `round(q, d)` on rationals: round-half-even at `d` decimal places. -/
def pyround (d : ℕ) (q : ℚ) : ℚ :=
  (round_half_even (q * (10 : ℚ) ^ d) : ℚ) / (10 : ℚ) ^ d

theorem round_half_even_nonneg (q : ℚ) (h : 0 ≤ q) : 0 ≤ round_half_even q := by
  have hf : (0 : ℤ) ≤ ⌊q⌋ := Int.floor_nonneg.mpr h
  unfold round_half_even
  dsimp only
  split_ifs <;> omega

theorem round_half_even_ge (q : ℚ) (M : ℤ) (h : (M : ℚ) ≤ q) : M ≤ round_half_even q := by
  have hf : M ≤ ⌊q⌋ := Int.le_floor.mpr h
  unfold round_half_even
  dsimp only
  split_ifs <;> omega

theorem round_half_even_le (q : ℚ) (M : ℤ) (h : q ≤ (M : ℚ)) : round_half_even q ≤ M := by
  have hfl : ⌊q⌋ ≤ M := by
    have := Int.floor_le_floor h
    simpa using this
  unfold round_half_even
  dsimp only
  split_ifs with h1 h2 h3
  · exact hfl
  · -- the fractional part exceeds 1/2, so ⌊q⌋ < q ≤ M and ⌊q⌋ + 1 ≤ M
    by_contra hc
    push_neg at hc
    have hqM : ⌊q⌋ = M := by omega
    have : q - (⌊q⌋ : ℚ) ≤ 0 := by
      rw [hqM]; linarith
    linarith
  · exact hfl
  · by_contra hc
    push_neg at hc
    have hqM : ⌊q⌋ = M := by omega
    have hfr : q - (⌊q⌋ : ℚ) = 1/2 := le_antisymm (not_lt.mp h2) (not_lt.mp h1)
    rw [hqM] at hfr
    have : (M : ℚ) + 1/2 ≤ (M : ℚ) := by linarith
    linarith

theorem pyround_nonneg (d : ℕ) (q : ℚ) (h : 0 ≤ q) : 0 ≤ pyround d q := by
  unfold pyround
  have hp : (0 : ℚ) < (10 : ℚ) ^ d := by positivity
  have : (0 : ℤ) ≤ round_half_even (q * (10 : ℚ) ^ d) :=
    round_half_even_nonneg _ (by positivity)
  exact div_nonneg (by exact_mod_cast this) (le_of_lt hp)

theorem pyround_le_int (d : ℕ) (q : ℚ) (M : ℤ) (h : q ≤ (M : ℚ)) :
    pyround d q ≤ (M : ℚ) := by
  unfold pyround
  have hp : (0 : ℚ) < (10 : ℚ) ^ d := by positivity
  rw [div_le_iff hp]
  have hq : q * (10 : ℚ) ^ d ≤ ((M * 10 ^ d : ℤ) : ℚ) := by
    push_cast
    exact mul_le_mul_of_nonneg_right h (le_of_lt hp)
  have := round_half_even_le (q * (10 : ℚ) ^ d) (M * 10 ^ d) hq
  calc (round_half_even (q * (10 : ℚ) ^ d) : ℚ)
      ≤ ((M * 10 ^ d : ℤ) : ℚ) := by exact_mod_cast this
    _ = (M : ℚ) * (10 : ℚ) ^ d := by push_cast; ring

theorem pyround_ge_int (d : ℕ) (q : ℚ) (M : ℤ) (h : (M : ℚ) ≤ q) :
    (M : ℚ) ≤ pyround d q := by
  unfold pyround
  have hp : (0 : ℚ) < (10 : ℚ) ^ d := by positivity
  rw [le_div_iff hp]
  have hq : ((M * 10 ^ d : ℤ) : ℚ) ≤ q * (10 : ℚ) ^ d := by
    push_cast
    exact mul_le_mul_of_nonneg_right h (le_of_lt hp)
  have := round_half_even_ge (q * (10 : ℚ) ^ d) (M * 10 ^ d) hq
  calc (M : ℚ) * (10 : ℚ) ^ d
      = ((M * 10 ^ d : ℤ) : ℚ) := by push_cast; ring
    _ ≤ (round_half_even (q * (10 : ℚ) ^ d) : ℚ) := by exact_mod_cast this

theorem pyround_le_one (d : ℕ) (q : ℚ) (h : q ≤ 1) : pyround d q ≤ 1 := by
  have := pyround_le_int d q 1 (by exact_mod_cast h)
  simpa using this

/-! ### settings.py

`classify_extraversion` reads the two thresholds from the environment with
defaults 2.3 and 3.6; the environment lookup is modelled at its defaults. -/

/-- settings.NEUTRAL_SCORE -/
def NEUTRAL_SCORE : ℚ := 3

/-- settings.LOW_EXTRAVERSION_THRESHOLD (default 2.3). -/
def LOW_EXTRAVERSION_THRESHOLD : ℚ := 23/10

/-- settings.HIGH_EXTRAVERSION_THRESHOLD (default 3.6). -/
def HIGH_EXTRAVERSION_THRESHOLD : ℚ := 36/10

/-- settings.classify_extraversion -/
def classify_extraversion (score : ℚ) : String :=
  if score ≤ LOW_EXTRAVERSION_THRESHOLD then "Low"
  else if score ≤ HIGH_EXTRAVERSION_THRESHOLD then "Medium"
  else "High"

/-- The `_classify` helper duplicated (with hardcoded thresholds 2.3 / 3.6) in
feature_scorer.py, llm_scorer.py and embedding_scorer.py. -/
def scorerClassify (score : ℚ) : String :=
  if score ≤ 23/10 then "Low"
  else if score ≤ 36/10 then "Medium"
  else "High"

/-! ### extraction/features.py — string primitives

The tokenizer is `re.findall(r"\b[a-z]+(?:'[a-z]+)?\b", text.lower())` after
normalizing smart quotes.  `\b` semantics (word characters: letters, digits,
underscore) are embedded for ASCII text, including the regex engine's
backtracking: a letter run glued to a digit/underscore yields no token, and
a failing apostrophe group falls back to the bare first run. -/

/-- An ASCII lowercase letter, the regex character class `[a-z]`. -/
def isLowerAZ (c : Char) : Bool := 'a' ≤ c && c ≤ 'z'

/-- A regex word character (`\w`): ASCII letter, digit or underscore. -/
def isWordChar (c : Char) : Bool := c.isAlpha || c.isDigit || c = '_'

/-- Python `\s` (ASCII part): space, tab, newline, carriage return,
vertical tab, form feed. -/
def isPySpace (c : Char) : Bool :=
  c = ' ' || c = '\t' || c = '\n' || c = '\r' || c = '\x0b' || c = '\x0c'

/-- The smart-quote normalization at the top of `_tokenize`. -/
def normalizeQuote (c : Char) : Char :=
  if c = '’' || c = '‘' then '\''
  else if c = '“' || c = '”' then '"'
  else c

/-- Scanner state for the token regex.  `out prevW`: between matches, `prevW`
records whether the previous character was a word character (so `\b` fails at
the current position).  `run1 r1`: inside a `[a-z]+` run that started at a
valid `\b` (`r1` reversed).  `run2 r1 r2`: after `r1` and an apostrophe, inside
the optional `('[a-z]+)` group (`r2` reversed, possibly still empty). -/
inductive TokState where
  | out (prevW : Bool)
  | run1 (r1 : List Char)
  | run2 (r1 r2 : List Char)

/-- Left-to-right scan of `re.findall(r"\b[a-z]+(?:'[a-z]+)?\b", ·)` over
lowercased characters, including the regex engine's backtracking:

  * a letter run glued to a digit or underscore has no trailing `\b` and
    yields no token (and no shorter prefix of the run can match either);
  * an apostrophe group that fails (no letter after the apostrophe, or the
    second run glued to a word character) backtracks to the bare first run,
    whose trailing `\b` at the apostrophe always holds;
  * after a failed or fallen-back match the scan resumes exactly where the
    Python engine would (checked against CPython `re` on a test battery). -/
def tokenizeGo : List Char → TokState → List (List Char)
  | [], .out _ => []
  | [], .run1 r1 => [r1.reverse]
  | [], .run2 r1 [] => [r1.reverse]
  | [], .run2 r1 r2 => [r1.reverse ++ '\'' :: r2.reverse]
  | c :: rest, .out prevW =>
    if !prevW && isLowerAZ c then tokenizeGo rest (.run1 [c])
    else tokenizeGo rest (.out (isWordChar c))
  | c :: rest, .run1 r1 =>
    if isLowerAZ c then tokenizeGo rest (.run1 (c :: r1))
    else if c = '\'' then tokenizeGo rest (.run2 r1 [])
    else if isWordChar c then tokenizeGo rest (.out true)
    else r1.reverse :: tokenizeGo rest (.out false)
  | c :: rest, .run2 r1 [] =>
    if isLowerAZ c then tokenizeGo rest (.run2 r1 [c])
    else r1.reverse :: tokenizeGo rest (.out (isWordChar c))
  | c :: rest, .run2 r1 r2 =>
    if isLowerAZ c then tokenizeGo rest (.run2 r1 (c :: r2))
    else if isWordChar c then r1.reverse :: tokenizeGo rest (.out true)
    else (r1.reverse ++ '\'' :: r2.reverse) :: tokenizeGo rest (.out false)

/-- features._tokenize: lowercase word tokens, preserving contractions. -/
def _tokenize (text : String) : List String :=
  (tokenizeGo ((text.data.map normalizeQuote).map Char.toLower) (.out false)).map
    (fun cs => String.mk cs)

/-- A sentence-ending punctuation character, the regex class `[.!?]`. -/
def isSentencePunct (c : Char) : Bool := c = '.' || c = '!' || c = '?'

/-- Scan of `re.split(r'[.!?]+(?:\s|$)', ·)`: a maximal run of `.!?` followed
by a whitespace character or the end of the string is a separator (consuming
one whitespace character); a punctuation run followed by anything else is
literal segment text (no shorter run can match, since the next character is
then punctuation, not `\s`).  `pend` buffers the current punctuation run and
`acc` the current segment, both reversed. -/
def splitSentencesGo : List Char → List Char → List Char → List (List Char)
  | [], pend, acc => if pend.isEmpty then [acc.reverse] else [acc.reverse, []]
  | c :: rest, pend, acc =>
    if isSentencePunct c then splitSentencesGo rest (c :: pend) acc
    else if !pend.isEmpty then
      if isPySpace c then acc.reverse :: splitSentencesGo rest [] []
      else splitSentencesGo rest [] (c :: (pend ++ acc))
    else splitSentencesGo rest [] (c :: acc)

/-- Python `str.strip()` on the character list (ASCII whitespace). -/
def pyStrip (cs : List Char) : List Char :=
  ((cs.dropWhile isPySpace).reverse.dropWhile isPySpace).reverse

/-- features._count_sentences: punctuation-boundary heuristic with a floor
of one sentence. -/
def _count_sentences (text : String) : ℕ :=
  let segs := splitSentencesGo (pyStrip text.data) [] []
  max 1 (segs.filter (fun s => s.dropWhile isPySpace ≠ [])).length

/-- features._count_matches: how many tokens appear in the word list. -/
def _count_matches (words : List String) (wordSet : List String) : ℕ :=
  (words.filter (fun w => w ∈ wordSet)).length

/-- Python `str.count` scan for a non-empty needle: non-overlapping
occurrences, left to right; after a hit the next `needle.length - 1`
positions cannot start a new occurrence (`skip` counts them down). -/
def countSubstrGo (needle : List Char) : List Char → ℕ → ℕ
  | [], _ => 0
  | _ :: rest, skip + 1 => countSubstrGo needle rest skip
  | c :: rest, 0 =>
    if List.isPrefixOf needle (c :: rest) then
      1 + countSubstrGo needle rest (needle.length - 1)
    else countSubstrGo needle rest 0

/-- Python `str.count` (the phrases in the source are never empty). -/
def countSubstr (hay needle : List Char) : ℕ :=
  match needle with
  | [] => 0
  | _ :: _ => countSubstrGo needle hay 0

/-- features._count_phrase_matches: case-insensitive substring counts of the
multi-word phrases over the raw text. -/
def _count_phrase_matches (text : String) (phrases : List String) : ℕ :=
  (phrases.map (fun p => countSubstr (text.data.map Char.toLower) p.data)).sum


/-! ### extraction/word_lists.py — the curated category word and phrase lists
(data; Python frozensets become lists, membership is unchanged). -/

/-- word_lists.POSITIVE_EMOTION -/
def POSITIVE_EMOTION : List String := [
  "happy", "happiness", "glad", "joyful", "joy", "delighted", "pleased", "cheerful", "merry",
  "blissful", "ecstatic", "elated", "euphoric", "thrilled", "overjoyed", "content", "satisfied",
  "fulfilled", "excited", "exciting", "excitement", "enthusiastic", "passionate", "eager",
  "energetic", "energized", "pumped", "stoked", "hyped", "inspired", "motivated", "driven",
  "alive", "vibrant", "dynamic", "great", "amazing", "awesome", "fantastic", "wonderful",
  "brilliant", "excellent", "superb", "marvelous", "terrific", "incredible", "outstanding",
  "magnificent", "phenomenal", "spectacular", "glorious", "perfect", "beautiful", "gorgeous",
  "lovely", "nice", "good", "cool", "sweet", "neat", "rad", "sick", "love", "loved", "loving",
  "adore", "cherish", "treasure", "care", "caring", "warm", "warmth", "kind", "tender", "fond",
  "affectionate", "compassionate", "generous", "gentle", "grateful", "thankful", "blessed",
  "fortunate", "lucky", "optimistic", "hopeful", "positive", "upbeat", "bright", "promising",
  "encouraged", "confident", "proud", "fun", "funny", "hilarious", "enjoy", "enjoying",
  "enjoyable", "entertaining", "amusing", "playful", "laugh", "laughing", "laughter", "humor",
  "humorous", "wit", "witty", "giggle", "smile", "smiling", "grin", "beam", "beaming",
  "celebrate", "celebration", "party"]

/-- word_lists.NEGATIVE_EMOTION -/
def NEGATIVE_EMOTION : List String := [
  "sad", "sadness", "unhappy", "miserable", "depressed", "depressing", "gloomy", "melancholy",
  "somber", "bleak", "desolate", "despair", "hopeless", "helpless", "heartbroken", "grief",
  "grieving", "mourning", "sorrowful", "dejected", "disheartened", "downcast", "angry", "anger",
  "furious", "enraged", "irritated", "annoyed", "frustrated", "frustrating", "frustration",
  "mad", "livid", "outraged", "resentful", "bitter", "hostile", "aggravated", "anxious",
  "anxiety", "worried", "worry", "nervous", "scared", "afraid", "fearful", "terrified",
  "panicked", "dread", "dreading", "uneasy", "tense", "stressed", "stress", "stressful",
  "overwhelmed", "apprehensive", "insecure", "terrible", "awful", "horrible", "dreadful",
  "disgusting", "hate", "hated", "hatred", "loathe", "detest", "despise", "bored", "boring",
  "tedious", "monotonous", "dull", "lonely", "loneliness", "isolated", "alone", "tired",
  "exhausted", "drained", "fatigued", "weary", "disappointed", "disappointing",
  "disappointment", "embarrassed", "ashamed", "guilty", "regret", "regretful", "disgusted",
  "repulsed", "bothered", "troubled", "disturbed", "pessimistic", "cynical", "doubtful"]

/-- word_lists.SOCIAL_REFERENCES -/
def SOCIAL_REFERENCES : List String := [
  "people", "person", "someone", "everyone", "everybody", "anyone", "somebody", "nobody",
  "crowd", "audience", "public", "friend", "friends", "friendship", "buddy", "buddies", "pal",
  "pals", "mate", "mates", "companion", "companions", "acquaintance", "neighbor", "neighbors",
  "neighbour", "neighbours", "colleague", "colleagues", "coworker", "coworkers", "classmate",
  "classmates", "roommate", "roommates", "partner", "boyfriend", "girlfriend", "spouse",
  "husband", "wife", "family", "mom", "dad", "mother", "father", "brother", "sister", "son",
  "daughter", "kids", "children", "parents", "party", "parties", "gathering", "gatherings",
  "event", "events", "meetup", "hangout", "outing", "reunion", "barbecue", "dinner", "lunch",
  "brunch", "drinks", "clubbing", "dancing", "festival", "concert", "game", "games", "meet",
  "meeting", "met", "socialize", "socializing", "mingle", "mingling", "chat", "chatting",
  "talk", "talking", "talked", "conversation", "conversations", "discuss", "discussing", "hang",
  "hanging", "invite", "invited", "join", "joined", "visit", "visiting", "visited", "host",
  "hosting", "hosted", "share", "sharing", "shared", "connect", "connecting", "group", "groups",
  "team", "teams", "club", "clubs", "community", "communities", "organization", "society",
  "together", "company", "enjoy company"]

/-- word_lists.FIRST_PERSON_SINGULAR -/
def FIRST_PERSON_SINGULAR : List String := [
  "i", "me", "my", "mine", "myself", "i'm", "i've", "i'll", "i'd"]

/-- word_lists.FIRST_PERSON_PLURAL -/
def FIRST_PERSON_PLURAL : List String := [
  "we", "us", "our", "ours", "ourselves", "we're", "we've", "we'll", "we'd"]

/-- word_lists.ASSERTIVE_LANGUAGE -/
def ASSERTIVE_LANGUAGE : List String := [
  "definitely", "certainly", "absolutely", "obviously", "clearly", "undoubtedly", "undeniably",
  "unquestionably", "surely", "indeed", "always", "never", "must", "shall", "will", "confident",
  "confidence", "sure", "certain", "convinced", "know", "believe", "assert", "insist",
  "declare", "state", "demand", "require", "decide", "decided", "determined", "lead", "leading",
  "leader", "initiative", "organize", "organized", "manage", "managed", "direct", "directed",
  "command", "charge", "responsibility", "responsible", "accountable", "strong", "bold",
  "brave", "courageous", "fearless", "powerful", "capable", "competent", "skilled",
  "accomplished", "successful", "achieve", "achieved", "achievement", "accomplish", "win",
  "won", "victory", "triumph", "excel", "excelled"]

/-- word_lists.HEDGING_LANGUAGE -/
def HEDGING_LANGUAGE : List String := [
  "maybe", "perhaps", "possibly", "probably", "might", "could", "somewhat", "fairly", "rather",
  "quite", "sometimes", "occasionally", "rarely", "seldom", "hardly", "slightly", "barely",
  "almost", "nearly", "approximately", "guess", "suppose", "wonder", "seem", "seems", "seemed",
  "appear", "appears", "appeared", "tend", "tends", "tended", "likely", "unlikely", "uncertain",
  "unsure", "kinda", "sorta", "hesitant", "tentative", "cautious", "careful", "wary",
  "reluctant", "doubtful", "skeptical", "sceptical", "honestly", "actually", "basically",
  "literally"]

/-- word_lists.EXCITEMENT_WORDS -/
def EXCITEMENT_WORDS : List String := [
  "adventure", "adventurous", "thrill", "thrilling", "exciting", "excitement", "adrenaline",
  "rush", "exhilarating", "risk", "risky", "dare", "daring", "bold", "wild", "spontaneous",
  "spontaneity", "impulsive", "impulse", "explore", "exploring", "exploration", "discover",
  "discovery", "travel", "traveling", "travelling", "trip", "journey", "new", "novel",
  "novelty", "different", "unique", "unusual", "extreme", "intense", "intensity", "fast",
  "speed", "racing", "challenge", "challenging", "compete", "competition", "competitive"]

/-- word_lists.HEDGE_PHRASES -/
def HEDGE_PHRASES : List String := [
  "kind of", "sort of", "a little", "a bit", "i guess", "i think", "i suppose", "i wonder",
  "not sure", "not certain", "don't know", "don't really", "to be honest", "i mean", "you know",
  "more or less", "in a way", "so to speak"]

/-- word_lists.ASSERTIVE_PHRASES -/
def ASSERTIVE_PHRASES : List String := [
  "i know", "i believe", "without a doubt", "no question", "for sure", "of course", "no doubt",
  "make sure", "take charge", "step up", "speak up", "stand up", "right away", "let's go",
  "let's do"]


/-! ### extraction/features.py — LinguisticFeatures and extract_features -/

/-- features.LinguisticFeatures: container for all extracted linguistic
features (raw counts and derived ratios), defaulting to an all-zero vector. -/
structure LinguisticFeatures where
  word_count : ℕ := 0
  sentence_count : ℕ := 0
  unique_word_count : ℕ := 0
  exclamation_count : ℕ := 0
  question_count : ℕ := 0
  positive_emotion_count : ℕ := 0
  negative_emotion_count : ℕ := 0
  social_reference_count : ℕ := 0
  first_person_singular_count : ℕ := 0
  first_person_plural_count : ℕ := 0
  assertive_count : ℕ := 0
  hedging_count : ℕ := 0
  excitement_count : ℕ := 0
  hedge_phrase_count : ℕ := 0
  assertive_phrase_count : ℕ := 0
  avg_word_length : ℚ := 0
  avg_sentence_length : ℚ := 0
  lexical_diversity : ℚ := 0
  positive_emotion_ratio : ℚ := 0
  negative_emotion_ratio : ℚ := 0
  social_reference_ratio : ℚ := 0
  first_person_singular_ratio : ℚ := 0
  first_person_plural_ratio : ℚ := 0
  assertive_ratio : ℚ := 0
  hedging_ratio : ℚ := 0
  excitement_ratio : ℚ := 0
  exclamation_ratio : ℚ := 0
  question_ratio : ℚ := 0
deriving DecidableEq

/-- LinguisticFeatures.scoring_vector: the twelve named fields used for
scoring, as the ordered key/value pairs of the Python dict. -/
def scoring_vector (f : LinguisticFeatures) : List (String × ℚ) :=
  [("positive_emotion_ratio", f.positive_emotion_ratio),
   ("negative_emotion_ratio", f.negative_emotion_ratio),
   ("social_reference_ratio", f.social_reference_ratio),
   ("first_person_singular_ratio", f.first_person_singular_ratio),
   ("first_person_plural_ratio", f.first_person_plural_ratio),
   ("assertive_ratio", f.assertive_ratio),
   ("hedging_ratio", f.hedging_ratio),
   ("excitement_ratio", f.excitement_ratio),
   ("exclamation_ratio", f.exclamation_ratio),
   ("avg_sentence_length", f.avg_sentence_length),
   ("lexical_diversity", f.lexical_diversity),
   ("word_count", (f.word_count : ℚ))]

/-- Python `dict.get(key, default)` on an association list. -/
def dictGet (d : List (String × ℚ)) (k : String) (dflt : ℚ) : ℚ :=
  (d.lookup k).getD dflt

/-- features.extract_features: all raw counts and derived ratios of a text.
Empty or whitespace-only text, or text with no word tokens, yields the
all-zero vector. -/
def extract_features (text : String) : LinguisticFeatures :=
  if (text.data.dropWhile isPySpace).isEmpty then {} else
  let words := _tokenize text
  let word_count := words.length
  if word_count = 0 then {} else
  let sentence_count := _count_sentences text
  let unique_word_count := words.dedup.length
  let exclamation_count := (text.data.filter (fun c => c = '!')).length
  let question_count := (text.data.filter (fun c => c = '?')).length
  let positive_emotion_count := _count_matches words POSITIVE_EMOTION
  let negative_emotion_count := _count_matches words NEGATIVE_EMOTION
  let social_reference_count := _count_matches words SOCIAL_REFERENCES
  let first_person_singular_count := _count_matches words FIRST_PERSON_SINGULAR
  let first_person_plural_count := _count_matches words FIRST_PERSON_PLURAL
  let assertive_count := _count_matches words ASSERTIVE_LANGUAGE
  let hedging_count := _count_matches words HEDGING_LANGUAGE
  let excitement_count := _count_matches words EXCITEMENT_WORDS
  let hedge_phrase_count := _count_phrase_matches text HEDGE_PHRASES
  let assertive_phrase_count := _count_phrase_matches text ASSERTIVE_PHRASES
  let total_hedge := hedging_count + hedge_phrase_count
  let total_assertive := assertive_count + assertive_phrase_count
  let avg_word_length :=
    ((words.map (fun w => ((w.data.filter (fun c => c ≠ '\'')).length : ℚ))).sum)
      / (word_count : ℚ)
  let avg_sentence_length := (word_count : ℚ) / (sentence_count : ℚ)
  let lexical_diversity := (unique_word_count : ℚ) / (word_count : ℚ)
  { word_count := word_count,
    sentence_count := sentence_count,
    unique_word_count := unique_word_count,
    exclamation_count := exclamation_count,
    question_count := question_count,
    positive_emotion_count := positive_emotion_count,
    negative_emotion_count := negative_emotion_count,
    social_reference_count := social_reference_count,
    first_person_singular_count := first_person_singular_count,
    first_person_plural_count := first_person_plural_count,
    assertive_count := total_assertive,
    hedging_count := total_hedge,
    excitement_count := excitement_count,
    hedge_phrase_count := hedge_phrase_count,
    assertive_phrase_count := assertive_phrase_count,
    avg_word_length := pyround 3 avg_word_length,
    avg_sentence_length := pyround 2 avg_sentence_length,
    lexical_diversity := pyround 3 lexical_diversity,
    positive_emotion_ratio := pyround 4 ((positive_emotion_count : ℚ) / (word_count : ℚ)),
    negative_emotion_ratio := pyround 4 ((negative_emotion_count : ℚ) / (word_count : ℚ)),
    social_reference_ratio := pyround 4 ((social_reference_count : ℚ) / (word_count : ℚ)),
    first_person_singular_ratio :=
      pyround 4 ((first_person_singular_count : ℚ) / (word_count : ℚ)),
    first_person_plural_ratio :=
      pyround 4 ((first_person_plural_count : ℚ) / (word_count : ℚ)),
    assertive_ratio := pyround 4 ((total_assertive : ℚ) / (word_count : ℚ)),
    hedging_ratio := pyround 4 ((total_hedge : ℚ) / (word_count : ℚ)),
    excitement_ratio := pyround 4 ((excitement_count : ℚ) / (word_count : ℚ)),
    exclamation_ratio := pyround 4 ((exclamation_count : ℚ) / (sentence_count : ℚ)),
    question_ratio := pyround 4 ((question_count : ℚ) / (sentence_count : ℚ)) }

/-! ### scoring/feature_scorer.py -/

/-- feature_scorer.FeatureWeight (the display-only `rationale` documentation
string field is omitted). -/
structure FeatureWeight where
  feature_name : String
  neutral_baseline : ℚ
  direction : ℚ
  weight : ℚ

/-- feature_scorer.WEIGHTS: the fixed scoring weight table. -/
def WEIGHTS : List FeatureWeight :=
  [⟨"positive_emotion_ratio", 0.04, 1, 12⟩,
   ⟨"negative_emotion_ratio", 0.03, -1, 8⟩,
   ⟨"social_reference_ratio", 0.04, 1, 14⟩,
   ⟨"first_person_plural_ratio", 0.015, 1, 10⟩,
   ⟨"assertive_ratio", 0.025, 1, 10⟩,
   ⟨"hedging_ratio", 0.04, -1, 8⟩,
   ⟨"excitement_ratio", 0.01, 1, 15⟩,
   ⟨"exclamation_ratio", 0.08, 1, 3⟩,
   ⟨"word_count", 25, 1, 0.008⟩,
   ⟨"lexical_diversity", 0.65, 1, 2⟩]

/-- feature_scorer._compute_confidence: distance of the score from the
neutral midpoint, scaled to saturate at a 1.5-point deviation. -/
def _compute_confidence (score : ℚ) : ℚ :=
  min 1 (|score - 3| / 1.5)

/-- The result dict of feature_scorer.score_with_features. -/
structure FeatResult where
  method : String
  score : ℚ
  classification : String
  confidence : ℚ
  feature_contributions : List (String × ℚ)
  raw_unclipped_score : Option ℚ
  warning : Option String
deriving DecidableEq

/-- feature_scorer.score_with_features: deterministic linear scoring over the
extracted features. -/
def score_with_features (features : LinguisticFeatures) : FeatResult :=
  if features.word_count = 0 then
    { method := "feature_based", score := 3.0, classification := "Medium",
      confidence := 0.0, feature_contributions := [],
      raw_unclipped_score := none,
      warning := some "No text to analyze — defaulting to neutral." }
  else
    let scoring_vec := scoring_vector features
    let contributions := WEIGHTS.map (fun w =>
      (w.feature_name,
       w.weight * w.direction * (dictGet scoring_vec w.feature_name 0 - w.neutral_baseline)))
    let total := (contributions.map Prod.snd).sum
    let raw_score := 3.0 + total
    let score := max 1.0 (min 5.0 raw_score)
    { method := "feature_based",
      score := pyround 2 score,
      classification := scorerClassify score,
      confidence := pyround 3 (_compute_confidence score),
      feature_contributions := contributions.map (fun p => (p.1, pyround 4 p.2)),
      raw_unclipped_score := some (pyround 4 raw_score),
      warning := none }

/-! ### scoring/llm_scorer.py — score_domain_level

The external generative call and the JSON layer are modelled by an explicit
input: either the transport fails (`llm.invoke` raises), the reply is not
valid JSON (`json.loads` raises JSONDecodeError), or it parses to a dict
whose relevant fields are given.  A field value is `absent` (missing key),
a number, a non-numeric string (`float` raises ValueError, which the first
handler does not catch) or a non-numeric non-string value (`float` raises
TypeError, which it does catch). -/

/-- A JSON field of the parsed model reply, as seen by `float(...)`. -/
inductive JField where
  | absent
  | num (q : ℚ)
  | badStr
  | badOther
deriving DecidableEq

/-- The outcome of the chat-model call in score_domain_level. -/
inductive LLMWorld where
  | transportFail (msg : String)
  | badJson
  | reply (score : JField) (classification : Option String)
      (confidence : JField) (evidence : Option String)
deriving DecidableEq

/-- The result dict of llm_scorer.score_domain_level. -/
structure LlmResult where
  method : String
  score : ℚ
  classification : String
  confidence : ℚ
  evidence : Option String
  error : Option String
deriving DecidableEq

/-- The neutral result of score_domain_level's `(JSONDecodeError, KeyError,
TypeError)` handler — note it carries an `evidence` field, not an `error`
field, so the ensemble treats it as a usable result.  (The Python message
interpolates the exception text; the message content is never branched on.) -/
def llmParseErrorResult : LlmResult :=
  { method := "llm_domain", score := 3.0, classification := "Medium",
    confidence := 0.0,
    evidence := some "LLM parse error. Defaulting to neutral.",
    error := none }

/-- llm_scorer.score_domain_level: overall Extraversion from the transcript,
given the modelled outcome of the external call. -/
def score_domain_level (transcript : String) (world : LLMWorld) : LlmResult :=
  if (transcript.data.dropWhile isPySpace).isEmpty then
    { method := "llm_domain", score := 3.0, classification := "Medium",
      confidence := 0.0,
      evidence := some "Empty transcript — no evidence to score.",
      error := none }
  else
    match world with
    | .transportFail msg =>
      { method := "llm_domain", score := 3.0, classification := "Medium",
        confidence := 0.0, evidence := none,
        error := some ("LLM scorer failed: " ++ msg) }
    | .badJson => llmParseErrorResult
    | .reply jscore cls jconf ev =>
      match jscore with
      | .absent => llmParseErrorResult
      | .badOther => llmParseErrorResult
      | .badStr =>
        -- float(str) raises ValueError, caught only by the generic handler
        { method := "llm_domain", score := 3.0, classification := "Medium",
          confidence := 0.0, evidence := none,
          error := some "LLM scorer failed: could not convert string to float" }
      | .num q =>
        let score := max 1.0 (min 5.0 q)
        match jconf with
        | .absent =>
          { method := "llm_domain", score := pyround 2 score,
            classification := cls.getD (scorerClassify score),
            confidence := pyround 3 0.5, evidence := some (ev.getD ""),
            error := none }
        | .num cq =>
          { method := "llm_domain", score := pyround 2 score,
            classification := cls.getD (scorerClassify score),
            confidence := pyround 3 cq, evidence := some (ev.getD ""),
            error := none }
        | .badStr =>
          { method := "llm_domain", score := 3.0, classification := "Medium",
            confidence := 0.0, evidence := none,
            error := some "LLM scorer failed: could not convert string to float" }
        | .badOther => llmParseErrorResult

/-! ### scoring/embedding_scorer.py — score_with_embeddings

The external embedding provider is modelled one step above the vectors: the
two mean cosine similarities (`high_sim`, `low_sim`) of the transcript to the
high- and low-Extraversion reference sets are the input (cosine similarity of
real vectors is not rational-representable; everything after those two means
is exact rational arithmetic from the source). -/

/-- The outcome of the embedding calls in score_with_embeddings. -/
inductive EmbWorld where
  | fail (msg : String)
  | sims (high_sim low_sim : ℚ)
deriving DecidableEq

/-- The result dict of embedding_scorer.score_with_embeddings. -/
structure EmbResult where
  method : String
  score : ℚ
  classification : String
  confidence : ℚ
  high_similarity : ℚ
  low_similarity : ℚ
  balance : Option ℚ
  warning : Option String
  error : Option String
deriving DecidableEq

/-- Python `str.split()`: whitespace-separated fields, empties dropped. -/
def pySplit (s : String) : List String :=
  (s.split (fun c => isPySpace c)).filter (fun w => w ≠ "")

/-- embedding_scorer.score_with_embeddings with `min_words = 15` (the
default, used by the ensemble). -/
def score_with_embeddings (transcript : String) (world : EmbWorld) : EmbResult :=
  let word_count := (pySplit transcript).length
  if word_count < 15 then
    { method := "embedding", score := 3.0, classification := "Medium",
      confidence := 0.0, high_similarity := 0.0, low_similarity := 0.0,
      balance := none,
      warning := some ("Transcript too short (" ++ toString word_count
        ++ " words < 15). Defaulting to neutral."),
      error := none }
  else
    match world with
    | .fail msg =>
      { method := "embedding", score := 3.0, classification := "Medium",
        confidence := 0.0, high_similarity := 0.0, low_similarity := 0.0,
        balance := none, warning := none,
        error := some ("Embedding scorer failed: " ++ msg) }
    | .sims high_sim low_sim =>
      let denom := high_sim + low_sim
      let balance := if denom < 1e-8 then 0 else (high_sim - low_sim) / denom
      let amplified := balance * 3.0
      let raw_score := 3.0 + amplified
      let score := max 1.0 (min 5.0 raw_score)
      { method := "embedding", score := pyround 2 score,
        classification := scorerClassify score,
        confidence := pyround 3 (min 1.0 (|amplified| / 1.5)),
        high_similarity := pyround 4 high_sim,
        low_similarity := pyround 4 low_sim,
        balance := some (pyround 4 balance),
        warning := none, error := none }

/-! ### scoring/ensemble.py -/

/-- The distinct values of a list in first-occurrence order (the key order of
a Python dict built by iteration, and the elements of `set(...)`). -/
def insertionKeys (l : List String) : List String :=
  l.foldl (fun acc c => if c ∈ acc then acc else acc ++ [c]) []

/-- ensemble._majority_vote: most common classification, ties broken by the
preference order Medium > High > Low. -/
def _majority_vote (classifications : List String) : String :=
  let keys := insertionKeys classifications
  match keys with
  | [] => "Medium"
  | _ =>
    let max_count := (keys.map (fun k => classifications.count k)).foldl max 0
    let winners := keys.filter (fun k => classifications.count k = max_count)
    match winners with
    | [w] => w
    | _ =>
      if "Medium" ∈ winners then "Medium"
      else if "High" ∈ winners then "High"
      else if "Low" ∈ winners then "Low"
      else "Medium"

/-- The `(score, confidence, classification)` triples collected by
score_ensemble, in its collection order (feature-based, then embedding, then
LLM): the feature result is always collected when enabled; the embedding and
LLM results only when their dict has no "error" key. -/
def gatherContribs (transcript : String) (features : Option LinguisticFeatures)
    (run_llm run_embedding run_features : Bool)
    (embW : EmbWorld) (llmW : LLMWorld) : List (ℚ × ℚ × String) :=
  (if run_features then
     let f := score_with_features (features.getD (extract_features transcript))
     [(f.score, f.confidence, f.classification)]
   else []) ++
  (if run_embedding then
     let e := score_with_embeddings transcript embW
     if e.error = none then [(e.score, e.confidence, e.classification)] else []
   else []) ++
  (if run_llm then
     let l := score_domain_level transcript llmW
     if l.error = none then [(l.score, l.confidence, l.classification)] else []
   else [])

/-- The result dict of ensemble.score_ensemble.  The keys that are present
only in one of the two return branches are `Option`-valued (`none` models an
absent key). -/
structure EnsembleResult where
  ensemble_score : ℚ
  ensemble_classification : String
  majority_vote_classification : Option String
  ensemble_confidence : ℚ
  fusion_method : String
  methods_used : Option ℕ
  methods_agree : Option Bool
  warning : Option String
  classification_votes : List (String × ℕ)
  feature_result : Option FeatResult
  embedding_result : Option EmbResult
  llm_result : Option LlmResult
deriving DecidableEq

/-- ensemble.score_ensemble: run the enabled scoring methods and fuse their
results (the optional facet-level call only stores supplementary detail and
takes no part in fusion, so it is not modelled). -/
def score_ensemble (transcript : String) (features : Option LinguisticFeatures)
    (run_llm run_embedding run_features : Bool)
    (embW : EmbWorld) (llmW : LLMWorld) : EnsembleResult :=
  let feature_result := if run_features then
    some (score_with_features (features.getD (extract_features transcript))) else none
  let embedding_result := if run_embedding then
    some (score_with_embeddings transcript embW) else none
  let llm_result := if run_llm then
    some (score_domain_level transcript llmW) else none
  match gatherContribs transcript features run_llm run_embedding run_features embW llmW with
  | [] =>
    { ensemble_score := NEUTRAL_SCORE,
      ensemble_classification := classify_extraversion NEUTRAL_SCORE,
      majority_vote_classification := none,
      ensemble_confidence := 0.0,
      fusion_method := "none",
      methods_used := none,
      methods_agree := none,
      warning := some "No scoring methods produced results.",
      classification_votes := [],
      feature_result := feature_result,
      embedding_result := embedding_result,
      llm_result := llm_result }
  | contribs =>
    let scores := contribs.map (fun t => t.1)
    let confidences := contribs.map (fun t => t.2.1)
    let classifications := contribs.map (fun t => t.2.2)
    let total_weight := confidences.sum
    let fusionPair : ℚ × String :=
      if total_weight > 0 then
        (((scores.zip confidences).map (fun p => p.1 * p.2)).sum / total_weight,
         "confidence_weighted_mean")
      else
        (scores.sum / (scores.length : ℚ), "arithmetic_mean")
    let ensemble_score := max 1.0 (min 5.0 fusionPair.1)
    let ensemble_classification := classify_extraversion ensemble_score
    let mean_confidence :=
      if confidences.isEmpty then 0 else confidences.sum / (confidences.length : ℚ)
    let all_agree := (insertionKeys classifications).length == 1
    let agreement_bonus : ℚ := if all_agree then 0.15 else 0.0
    let ensemble_confidence := min 1.0 (mean_confidence + agreement_bonus)
    { ensemble_score := pyround 2 ensemble_score,
      ensemble_classification := ensemble_classification,
      majority_vote_classification := some (_majority_vote classifications),
      ensemble_confidence := pyround 3 ensemble_confidence,
      fusion_method := fusionPair.2,
      methods_used := some scores.length,
      methods_agree := some all_agree,
      warning := none,
      classification_votes :=
        (insertionKeys classifications).map (fun c => (c, classifications.count c)),
      feature_result := feature_result,
      embedding_result := embedding_result,
      llm_result := llm_result }

/-! ### workflow.py and models/ — the session state machine nodes

`AssessmentState` mirrors models/state.py (the legacy `facet_scores` list is
not consulted by any modelled node and is omitted).  The LangGraph node
returns are merged into the state: every returned key overwrites, except
`messages`, whose `add_messages` reducer appends. -/

/-- A chat message in the LangGraph message history. -/
inductive Message where
  | ai (content : String)
  | human (content : String)
deriving DecidableEq

/-- models/state.py TurnRecord. -/
structure TurnRecord where
  turn_number : ℕ
  timestamp : String
  ai_message : String
  user_message : String
  features : LinguisticFeatures
deriving DecidableEq

/-- models/state.py AssessmentState. -/
structure AssessmentState where
  messages : List Message
  session_id : String
  probes_used : List String
  user_input : String
  transcript : String
  turn_records : List TurnRecord
  turn_features : List LinguisticFeatures
  scoring_results : Option EnsembleResult
  overall_score : ℚ
  classification : String
  confidence : ℚ
  turn_count : ℕ
  max_turns : ℕ
  done : Bool
deriving DecidableEq

/-- workflow.MAX_TURNS (fixed session length). -/
def MAX_TURNS : ℕ := 10

/-- models/initial_state.new_assessment_state (DEFAULT_MAX_TURNS = 10). -/
def new_assessment_state (session_id : String) (max_turns : ℕ := 10) :
    AssessmentState :=
  { messages := [], session_id := session_id, probes_used := [],
    user_input := "", transcript := "", turn_records := [],
    turn_features := [], scoring_results := none, overall_score := 0,
    classification := "", confidence := 0, turn_count := 0,
    max_turns := max_turns, done := false }

/-- The router's two goto targets. -/
inductive Route where
  | scorer
  | interviewer
deriving DecidableEq

/-- workflow.router: continue interviewing or move to scoring.  Returns the
state with the Command's update applied, and the goto target. -/
def router (s : AssessmentState) : AssessmentState × Route :=
  if s.done ∨ s.turn_count ≥ s.max_turns then ({ s with done := true }, .scorer)
  else (s, .interviewer)

/-- The `for msg in reversed(messages)` scan for the last AI message. -/
def lastAiText (msgs : List Message) : String :=
  (msgs.reverse.findSome? (fun m =>
    match m with
    | .ai c => some c
    | .human _ => none)).getD ""

/-- workflow.update_state, with the returned dict merged into the state
(LangGraph semantics; `now` stands for the ISO timestamp taken inside the
node).  Processes the user's response: accumulates the transcript with a turn
marker, increments `turn_count`, extracts per-turn features, appends the
TurnRecord, and sets `done` exactly when the new `turn_count` has reached
`max_turns`. -/
def update_state (s : AssessmentState) (now : String) : AssessmentState :=
  let user_text := s.user_input
  let turn_count := s.turn_count + 1
  let features := extract_features user_text
  let record : TurnRecord :=
    { turn_number := turn_count, timestamp := now,
      ai_message := lastAiText s.messages, user_message := user_text,
      features := features }
  { s with
    messages := s.messages ++ [Message.human user_text],
    transcript := s.transcript ++ "\n[Turn " ++ toString turn_count ++ "] " ++ user_text,
    turn_count := turn_count,
    turn_records := s.turn_records ++ [record],
    turn_features := s.turn_features ++ [features],
    done := decide (turn_count ≥ s.max_turns) }

/-- main.py quit handling: on the CLI input "quit", the runner resumes the
graph with the synthetic reply below.  Per the graph wiring
(`human_turn → update_state → router`), the resume value becomes
`user_input`, `update_state` runs, and the router decides the next node. -/
def cli_quit_synthetic_reply : String := "I'd prefer to stop here, thank you."

/-- The state transition main.py performs for the quit input: one resumed
turn with the synthetic reply, then the router's decision. -/
def cli_quit_resume (s : AssessmentState) (now : String) : AssessmentState × Route :=
  router (update_state { s with user_input := cli_quit_synthetic_reply } now)

/-! ### session/logger.py — SessionLogger

The filesystem is modelled as an association list from filename to written
JSON payload; `open(filepath, "w")` with `json.dump` replaces the file's
content.  `log_self_report` (a mutation of the scoring dict) is not needed
by any claim and is omitted. -/

/-- A turn record as logged by SessionLogger.log_turn. -/
structure TurnLog where
  turn_number : ℕ
  timestamp : String
  probe_id : Option String
  ai_message : String
  user_message : String
  features : Option LinguisticFeatures
deriving DecidableEq

/-- session/logger.SessionLogger's mutable fields. -/
structure SessionLogger where
  session_id : String
  started_at : String
  completed_at : Option String
  turns : List TurnLog
  scoring : Option EnsembleResult
  metadata : List (String × String)
deriving DecidableEq

/-- SessionLogger.__init__ (`started_at` is the creation timestamp). -/
def SessionLogger.new (session_id : String) (started_at : String) : SessionLogger :=
  { session_id := session_id, started_at := started_at, completed_at := none,
    turns := [], scoring := none,
    metadata := [("trait", "Extraversion"),
                 ("instrument", "IPIP 50-item Big Five Markers"),
                 ("model", "gpt-5.2")] }

/-- SessionLogger.log_turn. -/
def SessionLogger.log_turn (lg : SessionLogger) (turn_number : ℕ)
    (ai_message user_message : String) (probe_id : Option String)
    (features : Option LinguisticFeatures) (now : String) : SessionLogger :=
  { lg with turns := lg.turns ++
      [{ turn_number := turn_number, timestamp := now, probe_id := probe_id,
         ai_message := ai_message, user_message := user_message,
         features := features }] }

/-- SessionLogger.log_scoring. -/
def SessionLogger.log_scoring (lg : SessionLogger) (scoring : EnsembleResult)
    (now : String) : SessionLogger :=
  { lg with scoring := some scoring, completed_at := some now }

/-- The JSON payload of SessionLogger.to_dict. -/
structure SessionDict where
  session_id : String
  started_at : String
  completed_at : Option String
  metadata : List (String × String)
  total_turns : ℕ
  turns : List TurnLog
  scoring : Option EnsembleResult
deriving DecidableEq

/-- SessionLogger.to_dict. -/
def SessionLogger.to_dict (lg : SessionLogger) : SessionDict :=
  { session_id := lg.session_id, started_at := lg.started_at,
    completed_at := lg.completed_at, metadata := lg.metadata,
    total_turns := lg.turns.length, turns := lg.turns,
    scoring := lg.scoring }

/-- The session log directory, as a map from filename to file content;
writing a file replaces any previous content under the same name. -/
def writeFile (fs : List (String × SessionDict)) (name : String)
    (content : SessionDict) : List (String × SessionDict) :=
  (fs.filter (fun e => e.1 ≠ name)) ++ [(name, content)]

/-- SessionLogger.save: sets `completed_at` if unset and writes the log to
the file named `{session_id}_{stamp}.json`, where `stamp` is the
`%Y%m%d_%H%M%S`-formatted current time taken inside `save` (and `now_iso`
the ISO timestamp used for a missing `completed_at`). -/
def SessionLogger.save (lg : SessionLogger) (now_iso stamp : String)
    (fs : List (String × SessionDict)) :
    SessionLogger × List (String × SessionDict) :=
  let lg2 := if lg.completed_at = none then
    { lg with completed_at := some now_iso } else lg
  let filename := lg2.session_id ++ "_" ++ stamp ++ ".json"
  (lg2, writeFile fs filename lg2.to_dict)

/-! ## Claim theorems -/

/-- C1: for every transcript and every subset of enabled scorers, if zero
enabled scoring methods produce a usable (non-error) result, score_ensemble
returns ensemble_score 3.0, classification Medium, confidence 0.0,
fusion_method "none" and a warning — and, being a total function, never
raises. -/
theorem ensemble_zero_usable_neutral (transcript : String)
    (features : Option LinguisticFeatures) (run_llm run_embedding run_features : Bool)
    (embW : EmbWorld) (llmW : LLMWorld)
    (h : gatherContribs transcript features run_llm run_embedding run_features embW llmW = []) :
    let r := score_ensemble transcript features run_llm run_embedding run_features embW llmW
    r.ensemble_score = 3 ∧ r.ensemble_classification = "Medium" ∧
      r.ensemble_confidence = 0 ∧ r.fusion_method = "none" ∧
      r.warning = some "No scoring methods produced results." := by
  intro r
  have hr : r = score_ensemble transcript features run_llm run_embedding run_features embW llmW := rfl
  rw [hr]
  unfold score_ensemble
  rw [h]
  refine ⟨rfl, ?_, ?_, rfl, rfl⟩
  · show classify_extraversion NEUTRAL_SCORE = "Medium"
    with_unfolding_all decide
  · show (0.0 : ℚ) = 0
    norm_num

/-- Witness for C1: with all three scorers disabled, no method contributes and
score_ensemble returns the flagged neutral result. -/
theorem ensemble_zero_usable_neutral_witness :
    gatherContribs "x" none false false false (EmbWorld.fail "down") LLMWorld.badJson = [] ∧
    (let r := score_ensemble "x" none false false false (EmbWorld.fail "down") LLMWorld.badJson
     r.ensemble_score = 3 ∧ r.ensemble_classification = "Medium" ∧
       r.ensemble_confidence = 0 ∧ r.fusion_method = "none" ∧
       r.warning = some "No scoring methods produced results.") :=
  ⟨by with_unfolding_all decide,
   ensemble_zero_usable_neutral "x" none false false false (EmbWorld.fail "down")
     LLMWorld.badJson (by with_unfolding_all decide)⟩

/-- C4: completing one human turn (update_state) increases turn_count by
exactly 1 and leaves max_turns unchanged, and the router then goes to the
scorer exactly when the updated turn_count has reached max_turns, otherwise
back to the interviewer. -/
theorem update_state_turn_router (s : AssessmentState) (now : String) :
    (update_state s now).turn_count = s.turn_count + 1 ∧
    (update_state s now).max_turns = s.max_turns ∧
    (((router (update_state s now)).2 = Route.scorer ↔ s.max_turns ≤ s.turn_count + 1) ∧
     ((router (update_state s now)).2 = Route.interviewer ↔ s.turn_count + 1 < s.max_turns)) := by
  refine ⟨rfl, rfl, ?_⟩
  unfold router update_state
  dsimp only
  split_ifs with hc
  · simp only [decide_eq_true_eq] at hc
    constructor
    · simp only [true_iff]
      omega
    · simp only [reduceCtorEq, false_iff, not_lt]
      omega
  · simp only [decide_eq_true_eq, not_or] at hc
    constructor
    · simp only [reduceCtorEq, false_iff, not_le]
      omega
    · simp only [true_iff]
      omega

/-- C5 (code bug evaluation): from a fresh session with max_turns = 10, the
CLI quit handling — which prints "Ending session early — moving to scoring…" —
records the synthetic stop turn but then routes back to the interviewer, not
to the scorer. -/
theorem cli_quit_continues_interview :
    (cli_quit_resume (new_assessment_state "s1" 10) "t").2 = Route.interviewer ∧
    (cli_quit_resume (new_assessment_state "s1" 10) "t").2 ≠ Route.scorer ∧
    (cli_quit_resume (new_assessment_state "s1" 10) "t").1.turn_count = 1 := by
  refine ⟨rfl, by decide, rfl⟩

/-- C7 (code bug evaluation): score_domain_level clamps an out-of-range model
score (9.0 → 5.0) but passes the model's confidence through unclamped: a
reply with confidence 2.5 yields a result confidence of 2.5 > 1.0
(contradicting the repo's own test_confidence_clamped), and a classification
string outside {Low, Medium, High} is passed through verbatim. -/
theorem llm_confidence_not_clamped :
    (score_domain_level "Very social person."
      (LLMWorld.reply (JField.num 9) (some "High") (JField.num 0.5)
        (some "Very extraverted."))).score = 5 ∧
    (score_domain_level "Moderate person."
      (LLMWorld.reply (JField.num 3) (some "Medium") (JField.num 2.5)
        (some "Moderate."))).confidence = 5/2 ∧
    ¬ ((score_domain_level "Moderate person."
      (LLMWorld.reply (JField.num 3) (some "Medium") (JField.num 2.5)
        (some "Moderate."))).confidence ≤ 1) ∧
    (score_domain_level "Moderate person."
      (LLMWorld.reply (JField.num 3) (some "Banana") (JField.num 0.5)
        none)).classification = "Banana" := by
  refine ⟨by with_unfolding_all decide, by with_unfolding_all decide,
    by with_unfolding_all decide, rfl⟩

/-- In the main (non-degraded) branch of score_ensemble — any run with at
least one collected triple — no warning is set and the fusion method is one
of the two mean names, never "none". -/
theorem ensemble_main_branch (transcript : String)
    (features : Option LinguisticFeatures) (run_llm run_embedding run_features : Bool)
    (embW : EmbWorld) (llmW : LLMWorld) (a : ℚ × ℚ × String) (l : List (ℚ × ℚ × String))
    (h : gatherContribs transcript features run_llm run_embedding run_features embW llmW
        = a :: l) :
    (score_ensemble transcript features run_llm run_embedding run_features embW llmW).warning
        = none ∧
    (score_ensemble transcript features run_llm run_embedding run_features embW
        llmW).fusion_method ≠ "none" := by
  unfold score_ensemble
  rw [h]
  refine ⟨rfl, ?_⟩
  dsimp only
  split_ifs
  · exact (by decide : ("confidence_weighted_mean" : String) ≠ "none")
  · exact (by decide : ("arithmetic_mean" : String) ≠ "none")

/-- Counterexample for C10: with only the feature scorer enabled and an empty
transcript, the returned ensemble_confidence is 0.15 (the 0.0 mean confidence
plus the all-methods-agree bonus, which a single method always earns), not
0.0 as claimed. -/
theorem feature_always_contributes_counterexample :
    (score_ensemble "" none false false true (EmbWorld.fail "e")
      LLMWorld.badJson).ensemble_confidence = 3/20 ∧
    ¬ ((score_ensemble "" none false false true (EmbWorld.fail "e")
      LLMWorld.badJson).ensemble_confidence = 0) := by
  refine ⟨by with_unfolding_all decide, by with_unfolding_all decide⟩

/-- C10 (amended): whenever the feature scorer is enabled its triple is
collected unconditionally, so the "No scoring methods produced results."
branch is unreachable (fusion_method is never "none" and no top-level warning
is set); an empty transcript with only the feature scorer enabled yields
ensemble_score 3.0, classification Medium, fusion_method "arithmetic_mean" —
and ensemble_confidence 0.15 (not 0.0): the 0.0 mean plus the single-method
agreement bonus. -/
theorem feature_always_contributes_amended (transcript : String)
    (features : Option LinguisticFeatures) (run_llm run_embedding : Bool)
    (embW : EmbWorld) (llmW : LLMWorld) :
    ((score_ensemble transcript features run_llm run_embedding true embW llmW).fusion_method
        ≠ "none" ∧
     (score_ensemble transcript features run_llm run_embedding true embW llmW).warning
        = none) ∧
    (let r := score_ensemble "" none false false true (EmbWorld.fail "e") LLMWorld.badJson
     r.ensemble_score = 3 ∧ r.ensemble_classification = "Medium" ∧
       r.ensemble_confidence = 3/20 ∧ r.fusion_method = "arithmetic_mean" ∧
       r.warning = none) := by
  constructor
  · obtain ⟨a, l, h⟩ : ∃ a l, gatherContribs transcript features run_llm run_embedding true
        embW llmW = a :: l := by
      unfold gatherContribs
      simp only [if_true, List.singleton_append, List.cons_append]
      exact ⟨_, _, rfl⟩
    have hm := ensemble_main_branch transcript features run_llm run_embedding true
      embW llmW a l h
    exact ⟨hm.2, hm.1⟩
  · with_unfolding_all decide

/-- Bounds of a `pyround`ed ratio of counts: a count over a positive total
stays in [0, 1] when the count does not exceed the total. -/
theorem pyround_ratio_bounds (d : ℕ) (cnt wc : ℕ) (h : 0 < wc) (hle : cnt ≤ wc) :
    0 ≤ pyround d ((cnt : ℚ) / (wc : ℚ)) ∧ pyround d ((cnt : ℚ) / (wc : ℚ)) ≤ 1 := by
  have hw : (0:ℚ) < (wc : ℚ) := by exact_mod_cast h
  have h0 : 0 ≤ (cnt:ℚ)/(wc:ℚ) := by positivity
  have h1 : (cnt:ℚ)/(wc:ℚ) ≤ 1 := by
    rw [div_le_one hw]
    exact_mod_cast hle
  exact ⟨pyround_nonneg _ _ h0, pyround_le_one _ _ h1⟩

/-- A `pyround`ed quotient of two nonnegative casts is nonnegative. -/
theorem pyround_natdiv_nonneg (d : ℕ) (a b : ℕ) :
    0 ≤ pyround d ((a : ℚ) / (b : ℚ)) := by
  apply pyround_nonneg
  positivity

/-- Counterexample for C8: exclamation_ratio is divided by sentence_count and
exceeds 1 on "Hi!!" (two exclamation marks, one sentence); hedging_ratio and
assertive_ratio add raw-text substring phrase matches to a token-based word
count and also exceed 1 when digit-glued runs contribute no tokens. -/
theorem feature_ratio_range_counterexample :
    (extract_features "Hi!!").exclamation_ratio = 2 ∧
    ¬ ((extract_features "Hi!!").exclamation_ratio ≤ 1) ∧
    (extract_features "1kind of1 1kind of1 z").hedging_ratio = 2 ∧
    (extract_features "1take charge1 1take charge1 z").assertive_ratio = 2 := by
  refine ⟨by with_unfolding_all decide, by with_unfolding_all decide,
    by with_unfolding_all decide, by with_unfolding_all decide⟩

/-- C8 (amended): every ratio field of an extracted FeatureVector is ≥ 0; the
word-count-normalized single-token category ratios and lexical_diversity lie
in [0, 1]; but exclamation_ratio and question_ratio (divided by
sentence_count) and hedging_ratio and assertive_ratio (whose numerators add
substring phrase matches) are only guaranteed nonnegative. -/
theorem extract_features_ratio_bounds (text : String) :
    (0 ≤ (extract_features text).positive_emotion_ratio ∧
      (extract_features text).positive_emotion_ratio ≤ 1) ∧
    (0 ≤ (extract_features text).negative_emotion_ratio ∧
      (extract_features text).negative_emotion_ratio ≤ 1) ∧
    (0 ≤ (extract_features text).social_reference_ratio ∧
      (extract_features text).social_reference_ratio ≤ 1) ∧
    (0 ≤ (extract_features text).first_person_singular_ratio ∧
      (extract_features text).first_person_singular_ratio ≤ 1) ∧
    (0 ≤ (extract_features text).first_person_plural_ratio ∧
      (extract_features text).first_person_plural_ratio ≤ 1) ∧
    (0 ≤ (extract_features text).excitement_ratio ∧
      (extract_features text).excitement_ratio ≤ 1) ∧
    (0 ≤ (extract_features text).lexical_diversity ∧
      (extract_features text).lexical_diversity ≤ 1) ∧
    0 ≤ (extract_features text).assertive_ratio ∧
    0 ≤ (extract_features text).hedging_ratio ∧
    0 ≤ (extract_features text).exclamation_ratio ∧
    0 ≤ (extract_features text).question_ratio ∧
    0 ≤ (extract_features text).avg_word_length ∧
    0 ≤ (extract_features text).avg_sentence_length := by
  unfold extract_features
  split_ifs with h1
  · refine ⟨⟨le_refl 0, ?_⟩, ⟨le_refl 0, ?_⟩, ⟨le_refl 0, ?_⟩, ⟨le_refl 0, ?_⟩,
      ⟨le_refl 0, ?_⟩, ⟨le_refl 0, ?_⟩, ⟨le_refl 0, ?_⟩, le_refl 0, le_refl 0,
      le_refl 0, le_refl 0, le_refl 0, le_refl 0⟩ <;> norm_num
  · dsimp only
    split_ifs with h2
    · refine ⟨⟨le_refl 0, ?_⟩, ⟨le_refl 0, ?_⟩, ⟨le_refl 0, ?_⟩, ⟨le_refl 0, ?_⟩,
        ⟨le_refl 0, ?_⟩, ⟨le_refl 0, ?_⟩, ⟨le_refl 0, ?_⟩, le_refl 0, le_refl 0,
        le_refl 0, le_refl 0, le_refl 0, le_refl 0⟩ <;> norm_num
    · have hwc : 0 < (_tokenize text).length := Nat.pos_of_ne_zero h2
      refine ⟨?_, ?_, ?_, ?_, ?_, ?_, ?_, ?_, ?_, ?_, ?_, ?_, ?_⟩
      · exact pyround_ratio_bounds 4 _ _ hwc (List.length_filter_le _ _)
      · exact pyround_ratio_bounds 4 _ _ hwc (List.length_filter_le _ _)
      · exact pyround_ratio_bounds 4 _ _ hwc (List.length_filter_le _ _)
      · exact pyround_ratio_bounds 4 _ _ hwc (List.length_filter_le _ _)
      · exact pyround_ratio_bounds 4 _ _ hwc (List.length_filter_le _ _)
      · exact pyround_ratio_bounds 4 _ _ hwc (List.length_filter_le _ _)
      · exact pyround_ratio_bounds 3 _ _ hwc
          (List.Sublist.length_le (List.dedup_sublist _))
      · exact (pyround_natdiv_nonneg 4 _ _)
      · exact (pyround_natdiv_nonneg 4 _ _)
      · exact (pyround_natdiv_nonneg 4 _ _)
      · exact (pyround_natdiv_nonneg 4 _ _)
      · apply pyround_nonneg
        apply div_nonneg _ (by positivity)
        apply List.sum_nonneg
        intro x hx
        simp only [List.mem_map] at hx
        obtain ⟨w, _, hw⟩ := hx
        rw [← hw]
        positivity
      · exact (pyround_natdiv_nonneg 2 _ _)

/-- The claim-side scoring formula of the Rule Scorer: the fixed weight table
written out as the explicit sum Σ weight × direction × (observed − baseline)
over the twelve-field scoring vector. -/
def featureFormulaTotal (f : LinguisticFeatures) : ℚ :=
  12 * (f.positive_emotion_ratio - 0.04)
    - 8 * (f.negative_emotion_ratio - 0.03)
    + 14 * (f.social_reference_ratio - 0.04)
    + 10 * (f.first_person_plural_ratio - 0.015)
    + 10 * (f.assertive_ratio - 0.025)
    - 8 * (f.hedging_ratio - 0.04)
    + 15 * (f.excitement_ratio - 0.01)
    + 3 * (f.exclamation_ratio - 0.08)
    + 0.008 * ((f.word_count : ℚ) - 25)
    + 2 * (f.lexical_diversity - 0.65)

/-- Counterexample for C6: a FeatureVector whose weighted sum is exactly
0.005 (everything at baseline except lexical_diversity = 0.6525).  The
clipped formula score is 3.005 but the returned score field is the
2-decimal-rounded 3.0, so the returned score does not equal the clipped
formula value. -/
theorem feature_score_rounding_counterexample :
    let fv0 : LinguisticFeatures :=
      { word_count := 25, positive_emotion_ratio := 0.04,
        negative_emotion_ratio := 0.03, social_reference_ratio := 0.04,
        first_person_plural_ratio := 0.015, assertive_ratio := 0.025,
        hedging_ratio := 0.04, excitement_ratio := 0.01,
        exclamation_ratio := 0.08, lexical_diversity := 0.6525 }
    (score_with_features fv0).score = 3 ∧
    max 1 (min 5 (3 + featureFormulaTotal fv0)) = 601/200 ∧
    (score_with_features fv0).score ≠ max 1 (min 5 (3 + featureFormulaTotal fv0)) := by
  refine ⟨by with_unfolding_all decide, by with_unfolding_all decide,
    by with_unfolding_all decide⟩

/-- C6 (amended): score_with_features is pure and total; on word_count = 0 it
returns exactly the neutral warning result, and otherwise the returned fields
are the 2-decimal rounding of the clipped formula score, the classification
of the (unrounded) clipped score by the fixed thresholds, and the 3-decimal
rounding of min(1, |clipped − 3| / 1.5). -/
theorem score_with_features_amended (f : LinguisticFeatures) :
    (score_with_features f).score =
      (if f.word_count = 0 then 3 else
        pyround 2 (max 1 (min 5 (3 + featureFormulaTotal f)))) ∧
    (score_with_features f).classification =
      (if f.word_count = 0 then "Medium" else
        scorerClassify (max 1 (min 5 (3 + featureFormulaTotal f)))) ∧
    (score_with_features f).confidence =
      (if f.word_count = 0 then 0 else
        pyround 3 (min 1 (|max 1 (min 5 (3 + featureFormulaTotal f)) - 3| / 1.5))) ∧
    ((score_with_features f).warning = none ↔ f.word_count ≠ 0) := by
  by_cases h : f.word_count = 0
  · refine ⟨?_, ?_, ?_, ?_⟩ <;> simp [score_with_features, h] <;> norm_num
  · have htot : ((WEIGHTS.map (fun w =>
        (w.feature_name,
         w.weight * w.direction *
           (dictGet (scoring_vector f) w.feature_name 0 - w.neutral_baseline)))).map
           Prod.snd).sum = featureFormulaTotal f := by
      have k1 : dictGet (scoring_vector f) "positive_emotion_ratio" 0
          = f.positive_emotion_ratio := rfl
      have k2 : dictGet (scoring_vector f) "negative_emotion_ratio" 0
          = f.negative_emotion_ratio := rfl
      have k3 : dictGet (scoring_vector f) "social_reference_ratio" 0
          = f.social_reference_ratio := rfl
      have k4 : dictGet (scoring_vector f) "first_person_plural_ratio" 0
          = f.first_person_plural_ratio := rfl
      have k5 : dictGet (scoring_vector f) "assertive_ratio" 0
          = f.assertive_ratio := rfl
      have k6 : dictGet (scoring_vector f) "hedging_ratio" 0
          = f.hedging_ratio := rfl
      have k7 : dictGet (scoring_vector f) "excitement_ratio" 0
          = f.excitement_ratio := rfl
      have k8 : dictGet (scoring_vector f) "exclamation_ratio" 0
          = f.exclamation_ratio := rfl
      have k9 : dictGet (scoring_vector f) "word_count" 0
          = (f.word_count : ℚ) := rfl
      have k10 : dictGet (scoring_vector f) "lexical_diversity" 0
          = f.lexical_diversity := rfl
      simp only [WEIGHTS, List.map_cons, List.map_nil, List.sum_cons,
        List.sum_nil, k1, k2, k3, k4, k5, k6, k7, k8, k9, k10,
        featureFormulaTotal]
      norm_num
      ring
    refine ⟨?_, ?_, ?_, ?_⟩ <;>
      simp only [score_with_features, if_neg h, _compute_confidence, htot] <;>
      norm_num <;>
      try exact h

/-- One write under a fixed filename replaces any earlier write under the
same filename. -/
theorem writeFile_writeFile (fs : List (String × SessionDict)) (n : String)
    (v w : SessionDict) : writeFile (writeFile fs n v) n w = writeFile fs n w := by
  unfold writeFile
  rw [List.filter_append, List.filter_filter]
  simp

/-- After a write, exactly one stored file carries the written filename. -/
theorem writeFile_unique_name (fs : List (String × SessionDict)) (n : String)
    (v : SessionDict) :
    ((writeFile fs n v).filter (fun e => e.1 = n)).length = 1 := by
  unfold writeFile
  rw [List.filter_append]
  have h1 : (fs.filter (fun e => e.1 ≠ n)).filter (fun e => e.1 = n) = [] := by
    rw [List.filter_filter]
    apply List.filter_eq_nil.mpr
    intro a _
    simp only [Bool.and_eq_true, decide_eq_true_eq, ne_eq]
    rintro ⟨h, hne⟩
    exact absurd h hne
  rw [h1]
  simp

/-- Counterexample for C9: saving the same logger twice produces two distinct
persisted files for the same session id, because the filename embeds the
save-time `%Y%m%d_%H%M%S` timestamp — repeated saves do not overwrite a
single snapshot keyed by session id. -/
theorem logger_save_duplicates_counterexample :
    (let lg0 := SessionLogger.new "abc123" "2024-01-01T00:00:00"
     let first := lg0.save "2024-01-01T00:00:05" "20240101_000005" []
     let second := first.1.save "2024-01-01T00:00:09" "20240101_000009" first.2
     second.2.length = 2 ∧
       second.2.map Prod.fst =
         ["abc123_20240101_000005.json", "abc123_20240101_000009.json"]) := by
  with_unfolding_all decide

/-- C9 (amended): a save is keyed by (session id, save-time timestamp), not
by session id alone: two saves with the same timestamp string overwrite the
single file under that name (and exactly one stored file carries it), but
saves at distinct timestamps create distinct files. -/
theorem logger_save_same_stamp_overwrites (lg : SessionLogger)
    (now_iso stamp : String) (fs : List (String × SessionDict)) :
    ((lg.save now_iso stamp fs).1.save now_iso stamp
        ((lg.save now_iso stamp fs).2)).2 = (lg.save now_iso stamp fs).2 ∧
    (((lg.save now_iso stamp fs).2.filter
        (fun e => e.1 = lg.session_id ++ "_" ++ stamp ++ ".json")).length = 1) := by
  unfold SessionLogger.save
  by_cases h : lg.completed_at = none
  · simp only [h, if_pos rfl, if_true]
    constructor
    · simp only [reduceCtorEq, if_false]
      exact writeFile_writeFile _ _ _ _
    · exact writeFile_unique_name _ _ _
  · simp only [if_neg h]
    exact ⟨writeFile_writeFile _ _ _ _, writeFile_unique_name _ _ _⟩

/-- Membership in the insertion fold: an element is in the fold's result iff
it is in the accumulator or in the folded list. -/
theorem mem_foldl_insert (l : List String) :
    ∀ (acc : List String) (x : String),
      (x ∈ l.foldl (fun acc c => if c ∈ acc then acc else acc ++ [c]) acc
        ↔ x ∈ acc ∨ x ∈ l) := by
  induction l with
  | nil => intro acc x; simp
  | cons c t ih =>
    intro acc x
    rw [List.foldl_cons, ih]
    by_cases hc : c ∈ acc
    · simp only [if_pos hc, List.mem_cons]
      constructor
      · rintro (hx | hx)
        · exact Or.inl hx
        · exact Or.inr (Or.inr hx)
      · rintro (hx | hx | hx)
        · exact Or.inl hx
        · exact Or.inl (hx ▸ hc)
        · exact Or.inr hx
    · simp only [if_neg hc, List.mem_append, List.mem_singleton, List.mem_cons]
      tauto

/-- The distinct-keys list has the same members as the original list. -/
theorem mem_insertionKeys (l : List String) (x : String) :
    x ∈ insertionKeys l ↔ x ∈ l := by
  unfold insertionKeys
  rw [mem_foldl_insert]
  simp

/-- The insertion fold preserves `Nodup` of the accumulator. -/
theorem insertionKeys_nodup_aux (l : List String) :
    ∀ (acc : List String), acc.Nodup →
      (l.foldl (fun acc c => if c ∈ acc then acc else acc ++ [c]) acc).Nodup := by
  induction l with
  | nil => intro acc h; simpa using h
  | cons c t ih =>
    intro acc h
    rw [List.foldl_cons]
    apply ih
    by_cases hc : c ∈ acc
    · simpa [if_pos hc] using h
    · rw [if_neg hc]
      simp [List.nodup_append, h, hc]

/-- The distinct-keys list has no duplicates. -/
theorem insertionKeys_nodup (l : List String) : (insertionKeys l).Nodup :=
  insertionKeys_nodup_aux l [] List.nodup_nil

/-- For a non-empty list, `len(set(·)) == 1` — one distinct key — says
exactly that all elements are identical. -/
theorem insertionKeys_length_eq_one_iff (a : String) (t : List String) :
    ((insertionKeys (a :: t)).length = 1 ↔
      ∀ x ∈ (a :: t), ∀ y ∈ (a :: t), x = y) := by
  constructor
  · intro h x hx y hy
    obtain ⟨k, hk⟩ := List.length_eq_one.mp h
    have hxk : x ∈ insertionKeys (a :: t) := (mem_insertionKeys _ _).mpr hx
    have hyk : y ∈ insertionKeys (a :: t) := (mem_insertionKeys _ _).mpr hy
    rw [hk, List.mem_singleton] at hxk hyk
    rw [hxk, hyk]
  · intro hall
    have ha : a ∈ insertionKeys (a :: t) :=
      (mem_insertionKeys _ _).mpr (List.mem_cons_self a t)
    have hnd := insertionKeys_nodup (a :: t)
    match hk : insertionKeys (a :: t) with
    | [] => rw [hk] at ha; exact absurd ha (List.not_mem_nil a)
    | [x] => rfl
    | x :: y :: r =>
      rw [hk] at hnd
      have hx : x ∈ insertionKeys (a :: t) := by rw [hk]; exact List.mem_cons_self _ _
      have hy : y ∈ insertionKeys (a :: t) := by
        rw [hk]; exact List.mem_cons_of_mem _ (List.mem_cons_self _ _)
      have hxa := hall x ((mem_insertionKeys _ _).mp hx) y ((mem_insertionKeys _ _).mp hy)
      have : x ∉ y :: r := (List.nodup_cons.mp hnd).1
      exact absurd (hxa ▸ List.mem_cons_self y r) this

/-- All elements of a list of classification labels are identical (the
claim's "all contributing classifications are identical"). -/
def allSame (l : List String) : Prop := ∀ x ∈ l, ∀ y ∈ l, x = y

instance allSameDecidable (l : List String) : Decidable (allSame l) :=
  inferInstanceAs (Decidable (∀ x ∈ l, ∀ y ∈ l, x = y))

/-- C2: whenever score_ensemble collects a non-empty list of contributing
(score, confidence, classification) triples, the returned fusion_method is
"confidence_weighted_mean" with the confidence-weighted mean
Σ(score·confidence)/Σ(confidence) exactly when the confidences sum to a
positive value, and otherwise "arithmetic_mean" with the unweighted mean; the
fused score is clipped to [1.0, 5.0] (and output rounded to 2 decimals), and
the fused confidence is the mean of the contributing confidences plus a flat
0.15 bonus exactly when all contributing classifications are identical,
capped at 1.0 (and output rounded to 3 decimals). -/
theorem ensemble_fusion_rule (transcript : String)
    (features : Option LinguisticFeatures)
    (run_llm run_embedding run_features : Bool) (embW : EmbWorld) (llmW : LLMWorld)
    (h : gatherContribs transcript features run_llm run_embedding run_features embW llmW ≠ []) :
    let contribs : List (ℚ × ℚ × String) :=
      gatherContribs transcript features run_llm run_embedding run_features embW llmW
    let scores : List ℚ := contribs.map (fun t => t.1)
    let confidences : List ℚ := contribs.map (fun t => t.2.1)
    let classifications : List String := contribs.map (fun t => t.2.2)
    let r : EnsembleResult :=
      score_ensemble transcript features run_llm run_embedding run_features embW llmW
    (r.fusion_method =
      if 0 < confidences.sum then "confidence_weighted_mean" else "arithmetic_mean") ∧
    r.ensemble_score = pyround 2 (max 1 (min 5
      (if 0 < confidences.sum then
        ((scores.zip confidences).map (fun p => p.1 * p.2)).sum / confidences.sum
       else scores.sum / (scores.length : ℚ)))) ∧
    r.ensemble_confidence = pyround 3 (min 1
      (confidences.sum / (confidences.length : ℚ) +
        if allSame classifications then (0.15 : ℚ) else 0)) := by
  obtain ⟨a, l, hal⟩ : ∃ a l,
      gatherContribs transcript features run_llm run_embedding run_features embW llmW
        = a :: l := by
    cases hg : gatherContribs transcript features run_llm run_embedding run_features embW llmW with
    | nil => exact absurd hg h
    | cons a l => exact ⟨a, l, rfl⟩
  unfold score_ensemble
  simp only [hal]
  have hiff : (((insertionKeys (List.map (fun t => t.2.2) (a :: l))).length == 1) = true)
      ↔ allSame (List.map (fun t => t.2.2) (a :: l)) := by
    unfold allSame
    rw [beq_iff_eq, List.map_cons, insertionKeys_length_eq_one_iff]
  refine ⟨?_, ?_, ?_⟩
  · simp only [gt_iff_lt]
    split_ifs <;> rfl
  · simp only [gt_iff_lt]
    split_ifs <;> norm_num
  · have hne : (List.map (fun t => t.2.1) (a :: l)).isEmpty = false := rfl
    simp only [hiff, hne, Bool.false_eq_true, if_false]
    split_ifs <;> norm_num

/-- Witness for C2: with only the feature scorer enabled on an empty
transcript, one triple contributes and the fusion rule applies to it. -/
theorem ensemble_fusion_rule_witness :
    gatherContribs "" none false false true (EmbWorld.fail "e") LLMWorld.badJson ≠ [] ∧
    (let contribs : List (ℚ × ℚ × String) :=
      gatherContribs "" none false false true (EmbWorld.fail "e") LLMWorld.badJson
     let scores : List ℚ := contribs.map (fun t => t.1)
     let confidences : List ℚ := contribs.map (fun t => t.2.1)
     let classifications : List String := contribs.map (fun t => t.2.2)
     let r : EnsembleResult :=
       score_ensemble "" none false false true (EmbWorld.fail "e") LLMWorld.badJson
     (r.fusion_method =
       if 0 < confidences.sum then "confidence_weighted_mean" else "arithmetic_mean") ∧
     r.ensemble_score = pyround 2 (max 1 (min 5
       (if 0 < confidences.sum then
         ((scores.zip confidences).map (fun p => p.1 * p.2)).sum / confidences.sum
        else scores.sum / (scores.length : ℚ)))) ∧
     r.ensemble_confidence = pyround 3 (min 1
       (confidences.sum / (confidences.length : ℚ) +
         if allSame classifications then (0.15 : ℚ) else 0))) :=
  ⟨by with_unfolding_all decide,
   ensemble_fusion_rule "" none false false true (EmbWorld.fail "e") LLMWorld.badJson
     (by with_unfolding_all decide)⟩

/-- The clipped fused score score_ensemble computes before its 2-decimal
output rounding: the confidence-weighted mean when the confidences sum to a
positive value, else the arithmetic mean, clipped to [1, 5]; the neutral 3.0
when nothing contributed. -/
def fusedClipSpec (contribs : List (ℚ × ℚ × String)) : ℚ :=
  match contribs with
  | [] => NEUTRAL_SCORE
  | c => max 1 (min 5 (if 0 < (c.map (fun t => t.2.1)).sum then
      (((c.map (fun t => t.1)).zip (c.map (fun t => t.2.1))).map
        (fun p => p.1 * p.2)).sum / (c.map (fun t => t.2.1)).sum
      else (c.map (fun t => t.1)).sum / ((c.map (fun t => t.1)).length : ℚ)))

/-- The clip to [1.0, 5.0] really lands in [1, 5]. -/
theorem clip_bounds (x : ℚ) :
    (1:ℚ) ≤ max 1.0 (min 5.0 x) ∧ max 1.0 (min 5.0 x) ≤ 5 := by
  constructor
  · exact le_trans (by norm_num) (le_max_left (1.0:ℚ) _)
  · apply max_le (by norm_num)
    exact le_trans (min_le_left _ _) (by norm_num)

/-- Rounding the clipped score to `d` decimals stays in [1, 5]. -/
theorem pyround_clip_bounds (d : ℕ) (x : ℚ) :
    (1:ℚ) ≤ pyround d (max 1.0 (min 5.0 x)) ∧ pyround d (max 1.0 (min 5.0 x)) ≤ 5 := by
  obtain ⟨h1, h5⟩ := clip_bounds x
  constructor
  · have := pyround_ge_int d (max 1.0 (min 5.0 x)) 1 (by exact_mod_cast h1)
    simpa using this
  · have := pyround_le_int d (max 1.0 (min 5.0 x)) 5 (by exact_mod_cast h5)
    simpa using this

/-- The mean of a non-empty list of confidences that each lie in [0, 1]
lies in [0, 1]. -/
theorem mean_conf_bounds (a : ℚ × ℚ × String) (l : List (ℚ × ℚ × String))
    (hconf : ∀ t ∈ a :: l, 0 ≤ t.2.1 ∧ t.2.1 ≤ 1) :
    0 ≤ ((a :: l).map (fun t => t.2.1)).sum / ((((a :: l).map (fun t => t.2.1)).length : ℕ) : ℚ)
    ∧ ((a :: l).map (fun t => t.2.1)).sum / ((((a :: l).map (fun t => t.2.1)).length : ℕ) : ℚ)
        ≤ 1 := by
  have hlen : (0:ℚ) < ((((a :: l).map (fun t => t.2.1)).length : ℕ) : ℚ) := by
    have : 0 < ((a :: l).map (fun t => t.2.1)).length := by simp
    exact_mod_cast this
  have hsum0 : 0 ≤ ((a :: l).map (fun t => t.2.1)).sum := by
    apply List.sum_nonneg
    intro x hx
    simp only [List.mem_map] at hx
    obtain ⟨t, ht, rfl⟩ := hx
    exact (hconf t ht).1
  have hsumle : ((a :: l).map (fun t => t.2.1)).sum
      ≤ ((((a :: l).map (fun t => t.2.1)).length : ℕ) : ℚ) := by
    have hb : ∀ x ∈ (a :: l).map (fun t => t.2.1), x ≤ (1:ℚ) := by
      intro x hx
      simp only [List.mem_map] at hx
      obtain ⟨t, ht, rfl⟩ := hx
      exact (hconf t ht).2
    have := List.sum_le_card_nsmul ((a :: l).map (fun t => t.2.1)) 1 hb
    simpa [nsmul_eq_mul] using this
  exact ⟨div_nonneg hsum0 hlen.le, by rw [div_le_one hlen]; exact hsumle⟩

/-- Counterexample for C3: (a) near the High threshold the returned rounded
ensemble_score classifies differently from the returned classification —
embedding (5.0, conf 1.0, "High") and model reply (1.0, conf 0.537, "Low")
fuse to 5.537/1.537 ≈ 3.6025, classified "High", while the returned score
field is the rounded 3.6, whose threshold class is "Medium"; (b) the
unclamped model confidence −0.5 drives the returned ensemble_confidence to
−0.35 < 0. -/
theorem ensemble_invariants_counterexample :
    (let r1 := score_ensemble "a a a a a a a a a a a a a a a" none true true false
        (EmbWorld.sims (1/2) (1/10))
        (LLMWorld.reply (JField.num 1) (some "Low") (JField.num (537/1000)) none)
     r1.ensemble_score = 18/5 ∧ r1.ensemble_classification = "High" ∧
       classify_extraversion r1.ensemble_score = "Medium") ∧
    (let r2 := score_ensemble "hi" none true false false (EmbWorld.fail "x")
        (LLMWorld.reply (JField.num 3) (some "Medium") (JField.num (-1/2)) none)
     r2.ensemble_confidence = -7/20 ∧ r2.ensemble_confidence < 0) := by
  with_unfolding_all decide

/-- C3 (amended): every score_ensemble result has ensemble_score in [1, 5];
its ensemble_classification equals the fixed thresholds applied to the
pre-rounding clipped fused score (which can differ from the thresholds
applied to the returned 2-decimal-rounded score near a boundary); and its
ensemble_confidence lies in [0, 1] provided every contributing method's
confidence lies in [0, 1] (true of the feature and embedding scorers, but
the judgment scorer can pass through an out-of-range model confidence). -/
theorem ensemble_invariants_amended (transcript : String)
    (features : Option LinguisticFeatures)
    (run_llm run_embedding run_features : Bool) (embW : EmbWorld) (llmW : LLMWorld)
    (hconf : ∀ t ∈ gatherContribs transcript features run_llm run_embedding run_features
        embW llmW, 0 ≤ t.2.1 ∧ t.2.1 ≤ 1) :
    let r : EnsembleResult :=
      score_ensemble transcript features run_llm run_embedding run_features embW llmW
    (1 ≤ r.ensemble_score ∧ r.ensemble_score ≤ 5) ∧
    r.ensemble_classification = classify_extraversion
      (fusedClipSpec (gatherContribs transcript features run_llm run_embedding run_features
        embW llmW)) ∧
    (0 ≤ r.ensemble_confidence ∧ r.ensemble_confidence ≤ 1) := by
  cases hg : gatherContribs transcript features run_llm run_embedding run_features embW llmW with
  | nil =>
    unfold score_ensemble
    simp only [hg]
    refine ⟨⟨by norm_num [NEUTRAL_SCORE], by norm_num [NEUTRAL_SCORE]⟩, ?_,
      by norm_num, by norm_num⟩
    rfl
  | cons a l =>
    rw [hg] at hconf
    unfold score_ensemble
    simp only [hg]
    refine ⟨?_, ?_, ?_⟩
    · exact pyround_clip_bounds 2 _
    · show classify_extraversion _ = classify_extraversion _
      congr 1
      unfold fusedClipSpec
      simp only [gt_iff_lt]
      norm_num
      split_ifs <;> rfl
    · have hne : (List.map (fun t => t.2.1) (a :: l)).isEmpty = false := rfl
      simp only [hne, Bool.false_eq_true, if_false]
      obtain ⟨hm0, hm1⟩ := mean_conf_bounds a l hconf
      have hb0 : (0:ℚ) ≤ (if ((insertionKeys (List.map (fun t => t.2.2) (a :: l))).length == 1) = true
          then (0.15:ℚ) else 0.0) := by
        split_ifs <;> norm_num
      have hb1 : (if ((insertionKeys (List.map (fun t => t.2.2) (a :: l))).length == 1) = true
          then (0.15:ℚ) else 0.0) ≤ 0.15 := by
        split_ifs <;> norm_num
      constructor
      · apply pyround_nonneg
        apply le_min (by norm_num)
        exact add_nonneg hm0 hb0
      · apply pyround_le_one
        exact le_trans (min_le_left _ _) (by norm_num)

/-- Witness for C3: only the feature scorer enabled on an empty transcript;
its single triple has confidence 0 ∈ [0, 1], so the amended invariants hold
at this input. -/
theorem ensemble_invariants_amended_witness :
    (∀ t ∈ gatherContribs "" none false false true (EmbWorld.fail "e") LLMWorld.badJson,
        0 ≤ t.2.1 ∧ t.2.1 ≤ 1) ∧
    (let r : EnsembleResult :=
      score_ensemble "" none false false true (EmbWorld.fail "e") LLMWorld.badJson
     (1 ≤ r.ensemble_score ∧ r.ensemble_score ≤ 5) ∧
     r.ensemble_classification = classify_extraversion
       (fusedClipSpec (gatherContribs "" none false false true (EmbWorld.fail "e")
         LLMWorld.badJson)) ∧
     (0 ≤ r.ensemble_confidence ∧ r.ensemble_confidence ≤ 1)) :=
  ⟨by with_unfolding_all decide,
   ensemble_invariants_amended "" none false false true (EmbWorld.fail "e") LLMWorld.badJson
     (by with_unfolding_all decide)⟩

end Psycho
